import Mathlib

/-!
Verification of the simulation kernel of the Bangladesh Flood Management and
Early Warning System Simulator.

The development shallowly embeds the agent behaviours of the Python source:

* `ShelterAgent` (src/bangladesh_flood_simulator/infrastructure/shelter_agent.py)
* `RiverAgent` (src/bangladesh_flood_simulator/hydrology/river_agent.py)
* `EconomicAgent` (src/bangladesh_flood_simulator/economics/economic_agent.py)
* `HouseholdAgent` (src/bangladesh_flood_simulator/social/household_agent.py)

Python floats are modelled as rationals (`ℚ`); Python's `max`/`min` become the
corresponding `ℚ` operations.  Household identity is modelled by `ℕ`, so a
shelter's occupant set is a `Finset ℕ` (Python holds a `set` of agent objects).
Randomised or cross-agent inputs (rainfall, distance-weighted river sums,
random draws) enter each step as explicit parameters.
-/

namespace FloodSim

/-! ## Shelter agent

Embeds `ShelterAgent`.  The four resource stocks are fixed at initialisation
(`food`, `water`, `medical_supplies`, `blankets`) and no code path ever adds a
key to the resources dict, so the resource map is a record with one rational
field per stock; a Python resource-request dict is a list of
(name, amount) pairs whose names may or may not be stocked. -/

inductive Rsrc : Type where
  | food
  | water
  | medical_supplies
  | blankets
deriving DecidableEq, Repr

/-- The `resources` mapping of a shelter: quantity per stocked resource. -/
structure ResMap where
  food : ℚ
  water : ℚ
  medical_supplies : ℚ
  blankets : ℚ
deriving DecidableEq, Repr

def ResMap.get (m : ResMap) : Rsrc → ℚ
  | .food => m.food
  | .water => m.water
  | .medical_supplies => m.medical_supplies
  | .blankets => m.blankets

def ResMap.set (m : ResMap) : Rsrc → ℚ → ResMap
  | .food, v => { m with food := v }
  | .water, v => { m with water := v }
  | .medical_supplies, v => { m with medical_supplies := v }
  | .blankets, v => { m with blankets := v }

/-- Membership test `resource in self.state['resources']`: the stocked keys are
exactly the four names written in `ShelterAgent.__init__`. -/
def lookupRsrc : String → Option Rsrc
  | "food" => some .food
  | "water" => some .water
  | "medical_supplies" => some .medical_supplies
  | "blankets" => some .blankets
  | _ => none

/-- A resource request: the (name, amount) pairs of the Python dict. -/
abbrev Req := List (String × ℚ)

/-- Shelter state: the `state` keys and owned containers that the shelter's
operations read or write.  `status` and `accessibility` are carried so `step`
is complete; `power_status` and `water_supply` are never mutated by the
source but are read by `_update_accessibility` / `_update_status`. -/
structure Shelter where
  capacity : ℕ
  occupancy : ℕ
  occupants : Finset ℕ
  resources : ResMap
  resource_requests : List Req
  maintenance_level : ℚ
  power_status : Bool
  water_supply : Bool
  status : String
  accessibility : ℚ
deriving DecidableEq

/-- `ShelterAgent.__init__`: empty occupant set, full stocks. -/
def initShelter (cap : ℕ) : Shelter where
  capacity := cap
  occupancy := 0
  occupants := ∅
  resources := { food := 1000, water := 5000, medical_supplies := 100, blankets := 500 }
  resource_requests := []
  maintenance_level := 1
  power_status := true
  water_supply := true
  status := "operational"
  accessibility := 1

/-- `ShelterAgent.add_occupant`: reject when `occupancy >= capacity`,
otherwise insert into the occupant set and recompute `occupancy` as its size. -/
def addOccupant (s : Shelter) (h : ℕ) : Bool × Shelter :=
  if s.capacity ≤ s.occupancy then
    (false, s)
  else
    let occ := insert h s.occupants
    (true, { s with occupants := occ, occupancy := occ.card })

/-- `ShelterAgent.remove_occupant`. -/
def removeOccupant (s : Shelter) (h : ℕ) : Shelter :=
  if h ∈ s.occupants then
    let occ := s.occupants.erase h
    { s with occupants := occ, occupancy := occ.card }
  else
    s

/-- `ShelterAgent.request_resources`: accepted only when every requested name
is stocked and every requested amount is at most the current stock; acceptance
queues the request without deducting. -/
def requestResources (s : Shelter) (req : Req) : Bool × Shelter :=
  if req.all (fun p =>
      match lookupRsrc p.1 with
      | some r => decide (p.2 ≤ s.resources.get r)
      | none => false) then
    (true, { s with resource_requests := s.resource_requests ++ [req] })
  else
    (false, s)

/-- `_update_resource_consumption`: per-occupant daily rates, floored at 0. -/
def consumeResources (res : ResMap) (occ : ℕ) : ResMap where
  food := max 0 (res.food - (1/2) * occ)
  water := max 0 (res.water - 5 * occ)
  medical_supplies := max 0 (res.medical_supplies - (1/10) * occ)
  blankets := max 0 (res.blankets - (1/5) * occ)

/-- One request is fully satisfiable against the current stocks
(`_process_resource_requests` availability check). -/
def canFulfill (res : ResMap) (req : Req) : Bool :=
  req.all (fun p =>
    match lookupRsrc p.1 with
    | some r => decide (p.2 ≤ res.get r)
    | none => false)

/-- Deduct one fulfilled request from the stocks. -/
def fulfill (res : ResMap) (req : Req) : ResMap :=
  req.foldl (fun acc p =>
    match lookupRsrc p.1 with
    | some r => acc.set r (acc.get r - p.2)
    | none => acc) res

/-- `_process_resource_requests`: walk the queue in FIFO order; a request still
fully satisfiable when reached is deducted and removed, otherwise it stays
queued. -/
def processQueue (res : ResMap) : List Req → ResMap × List Req
  | [] => (res, [])
  | req :: rest =>
    if canFulfill res req then
      processQueue (fulfill res req) rest
    else
      let (res', rest') := processQueue res rest
      (res', req :: rest')

/-- `_check_maintenance`: degrade the maintenance level proportionally to the
occupancy ratio and, below the 0.5 threshold, flag `maintenance_needed`
(`_request_maintenance` also records a `maintenance_cost` estimate, a state
key written nowhere else and read by no kernel code — omitted). -/
def degradeMaintenance (s : Shelter) : Shelter :=
  let degradation : ℚ := (1/100) * ((s.occupancy : ℚ) / (s.capacity : ℚ))
  let newLevel := max 0 (s.maintenance_level - degradation)
  { s with maintenance_level := newLevel,
           status := if newLevel < 1/2 then "maintenance_needed" else s.status }

/-- `_update_accessibility`: fixed-weight sum of factor scores. -/
def updateAccessibility (s : Shelter) : Shelter :=
  let factors : ℚ :=
    s.maintenance_level * (3/10) +
    (if s.power_status then 1 else 1/2) * (2/10) +
    (if s.water_supply then 1 else 1/2) * (2/10) +
    (1 - (s.occupancy : ℚ) / (s.capacity : ℚ)) * (3/10)
  { s with accessibility := factors }

/-- `_update_status`: priority order at_capacity, maintenance_needed,
resource_critical, operational, non_operational. -/
def updateStatus (s : Shelter) : Shelter :=
  let st :=
    if s.capacity ≤ s.occupancy then "at_capacity"
    else if s.maintenance_level ≤ 3/10 then "maintenance_needed"
    else if s.resources.food < 100 ∨ s.resources.water < 100 ∨
            s.resources.medical_supplies < 100 ∨ s.resources.blankets < 100 then
      "resource_critical"
    else if 3/10 < s.maintenance_level ∧ s.power_status ∧ s.water_supply then
      "operational"
    else "non_operational"
  { s with status := st }

/-- `ShelterAgent.step`: consumption, maintenance, request processing,
accessibility, status — in source order. -/
def shelterStep (s : Shelter) : Shelter :=
  let s := { s with resources := consumeResources s.resources s.occupancy }
  let s := degradeMaintenance s
  let pq := processQueue s.resources s.resource_requests
  let s := { s with resources := pq.1, resource_requests := pq.2 }
  let s := updateAccessibility s
  updateStatus s

/-- The operations a shelter's environment may invoke between/within steps. -/
inductive ShOp : Type where
  | add (h : ℕ)
  | remove (h : ℕ)
  | request (req : Req)
  | step

def applyShOp (s : Shelter) : ShOp → Shelter
  | .add h => (addOccupant s h).2
  | .remove h => removeOccupant s h
  | .request req => (requestResources s req).2
  | .step => shelterStep s

def runShelter (s : Shelter) (ops : List ShOp) : Shelter :=
  ops.foldl applyShOp s

/-! ### Shelter lemmas -/

lemma shelterStep_preserves_occupants (s : Shelter) :
    (shelterStep s).occupancy = s.occupancy ∧ (shelterStep s).occupants = s.occupants ∧
    (shelterStep s).capacity = s.capacity :=
  ⟨rfl, rfl, rfl⟩

lemma requestResources_preserves_occupants (s : Shelter) (req : Req) :
    (requestResources s req).2.occupancy = s.occupancy ∧
    (requestResources s req).2.occupants = s.occupants ∧
    (requestResources s req).2.capacity = s.capacity := by
  unfold requestResources
  split <;> simp

/-- The core shelter well-formedness: `occupancy` is the size of the occupant
set and stays within capacity. -/
def ShelterInv (s : Shelter) : Prop :=
  s.occupancy = s.occupants.card ∧ s.occupancy ≤ s.capacity

lemma shelterInv_apply {s : Shelter} (op : ShOp) (hs : ShelterInv s) :
    ShelterInv (applyShOp s op) := by
  obtain ⟨hcard, hcap⟩ := hs
  cases op with
  | add h =>
    simp only [applyShOp, addOccupant]
    split
    · exact ⟨hcard, hcap⟩
    · rename_i hlt
      refine ⟨rfl, ?_⟩
      calc (insert h s.occupants).card ≤ s.occupants.card + 1 := Finset.card_insert_le _ _
        _ = s.occupancy + 1 := by omega
        _ ≤ s.capacity := by omega
  | remove h =>
    simp only [applyShOp, removeOccupant]
    split
    · refine ⟨rfl, ?_⟩
      calc (s.occupants.erase h).card ≤ s.occupants.card := Finset.card_erase_le
        _ ≤ s.capacity := by omega
    · exact ⟨hcard, hcap⟩
  | request req =>
    obtain ⟨h1, h2, h3⟩ := requestResources_preserves_occupants s req
    exact ⟨by rw [applyShOp, h1, h2, hcard], by rw [applyShOp, h1, h3]; exact hcap⟩
  | step =>
    obtain ⟨h1, h2, h3⟩ := shelterStep_preserves_occupants s
    exact ⟨by rw [applyShOp, h1, h2, hcard], by rw [applyShOp, h1, h3]; exact hcap⟩

lemma applyShOp_capacity (s : Shelter) (op : ShOp) :
    (applyShOp s op).capacity = s.capacity := by
  cases op with
  | add h => simp only [applyShOp, addOccupant]; split <;> simp
  | remove h => simp only [applyShOp, removeOccupant]; split <;> simp
  | request req => exact (requestResources_preserves_occupants s req).2.2
  | step => exact (shelterStep_preserves_occupants s).2.2

lemma shelterInv_run {s : Shelter} (ops : List ShOp) (hs : ShelterInv s) :
    ShelterInv (runShelter s ops) := by
  induction ops generalizing s with
  | nil => exact hs
  | cons op rest ih => exact ih (shelterInv_apply op hs)

lemma runShelter_capacity (s : Shelter) (ops : List ShOp) :
    (runShelter s ops).capacity = s.capacity := by
  induction ops generalizing s with
  | nil => rfl
  | cons op rest ih => rw [runShelter, List.foldl_cons, ← runShelter, ih, applyShOp_capacity]

/-! ### Claim theorems: shelter admission and occupancy -/

/-- C1: `add_occupant` succeeds and returns true iff occupancy < capacity at
the time of the call; on rejection it returns false and the shelter (so in
particular its occupant set and occupancy) is unchanged.  A shelter of
capacity 2 given 3 sequential admissions of distinct households admits the
first two, reaching occupancy 2, and rejects the third with occupancy
still 2. -/
theorem add_occupant_iff_below_capacity (s : Shelter) (h : ℕ) :
    ((addOccupant s h).1 = true ↔ s.occupancy < s.capacity) ∧
    ((addOccupant s h).1 = false → (addOccupant s h).2 = s) ∧
    ((addOccupant (initShelter 2) 0).1 = true ∧
     (addOccupant (addOccupant (initShelter 2) 0).2 1).1 = true ∧
     (addOccupant (addOccupant (initShelter 2) 0).2 1).2.occupancy = 2 ∧
     (addOccupant (addOccupant (addOccupant (initShelter 2) 0).2 1).2 2).1 = false ∧
     (addOccupant (addOccupant (addOccupant (initShelter 2) 0).2 1).2 2).2.occupancy = 2) := by
  refine ⟨?_, ?_, by decide⟩
  · unfold addOccupant
    split <;> simp <;> omega
  · unfold addOccupant
    split <;> simp

/-- Witness for C1: a capacity-0 shelter rejects an admission unchanged. -/
theorem add_occupant_iff_below_capacity_witness :
    (addOccupant (initShelter 0) 5).1 = false ∧
    (addOccupant (initShelter 0) 5).2 = initShelter 0 :=
  ⟨by decide, (add_occupant_iff_below_capacity (initShelter 0) 5).2.1 (by decide)⟩

/-- C5: after any sequence of `add_occupant`, `remove_occupant` and `step`
calls starting from a freshly initialised shelter, `occupancy` equals the
cardinality of the occupant set, `occupancy` never exceeds the capacity,
and the capacity is the configured one. -/
theorem shelter_occupancy_eq_card_and_bounded (cap : ℕ) (ops : List ShOp) :
    (runShelter (initShelter cap) ops).occupancy =
      (runShelter (initShelter cap) ops).occupants.card ∧
    (runShelter (initShelter cap) ops).occupancy ≤ cap ∧
    (runShelter (initShelter cap) ops).capacity = cap := by
  have hinit : ShelterInv (initShelter cap) := by
    constructor
    · rfl
    · exact Nat.zero_le _
  obtain ⟨h1, h2⟩ := shelterInv_run ops hinit
  have hc : (runShelter (initShelter cap) ops).capacity = cap :=
    runShelter_capacity (initShelter cap) ops
  exact ⟨h1, le_of_le_of_eq h2 hc, hc⟩

/-- C10: admitting a household that is already an occupant of a non-full
shelter returns true and changes nothing: the occupant set and the occupancy
count are exactly as before (the occupant container is a set, so re-insertion
is idempotent). -/
theorem add_occupant_readmission_idempotent (s : Shelter) (h : ℕ)
    (hmem : h ∈ s.occupants) (hlt : s.occupancy < s.capacity)
    (hcard : s.occupancy = s.occupants.card) :
    (addOccupant s h).1 = true ∧ (addOccupant s h).2 = s := by
  unfold addOccupant
  rw [if_neg (by omega)]
  refine ⟨rfl, ?_⟩
  have hins : insert h s.occupants = s.occupants := Finset.insert_eq_self.mpr hmem
  cases s
  simp_all

/-- Witness for C10: re-admitting household 0 into a capacity-2 shelter that
already holds it leaves the shelter unchanged. -/
theorem add_occupant_readmission_idempotent_witness :
    (addOccupant (addOccupant (initShelter 2) 0).2 0).1 = true ∧
    (addOccupant (addOccupant (initShelter 2) 0).2 0).2 =
      (addOccupant (initShelter 2) 0).2 :=
  add_occupant_readmission_idempotent ((addOccupant (initShelter 2) 0).2) 0
    (by decide) (by decide) (by decide)

/-! ### Shelter resource claims -/

lemma ResMap.get_set (m : ResMap) (r r' : Rsrc) (v : ℚ) :
    (m.set r v).get r' = if r' = r then v else m.get r' := by
  cases r <;> cases r' <;> simp [ResMap.get, ResMap.set]

/-- The name under which a stocked resource is keyed. -/
def rsrcName : Rsrc → String
  | .food => "food"
  | .water => "water"
  | .medical_supplies => "medical_supplies"
  | .blankets => "blankets"

lemma lookupRsrc_eq_name {a : String} {r : Rsrc} (h : lookupRsrc a = some r) :
    a = rsrcName r := by
  unfold lookupRsrc at h
  split at h <;>
    first
      | (injection h with h'
         subst h'
         rfl)
      | cases h

lemma lookupRsrc_inj {a b : String} {r : Rsrc} (ha : lookupRsrc a = some r)
    (hb : lookupRsrc b = some r) : a = b :=
  (lookupRsrc_eq_name ha).trans (lookupRsrc_eq_name hb).symm

/-- Well-formedness of a queued request: the names are pairwise distinct
(a Python dict cannot repeat keys) and each names a stocked resource
(guaranteed by the acceptance check in `request_resources`). -/
def ReqKeysOK (req : Req) : Prop :=
  (req.map Prod.fst).Nodup ∧ ∀ p ∈ req, (lookupRsrc p.1).isSome

lemma fulfill_nonneg (req : Req) (res : ResMap)
    (hkeys : ReqKeysOK req) (hcan : canFulfill res req = true)
    (hres : ∀ r, 0 ≤ res.get r) : ∀ r, 0 ≤ (fulfill res req).get r := by
  induction req generalizing res with
  | nil => exact hres
  | cons p rest ih =>
    obtain ⟨hnd, hknown⟩ := hkeys
    obtain ⟨r0, hr0⟩ := Option.isSome_iff_exists.mp (hknown p (by simp))
    have hcan' := hcan
    unfold canFulfill at hcan'
    simp only [List.all_cons, Bool.and_eq_true] at hcan'
    obtain ⟨hp, hrest⟩ := hcan'
    rw [hr0] at hp
    have hple : p.2 ≤ res.get r0 := of_decide_eq_true hp
    have hstep : fulfill res (p :: rest) =
        fulfill (res.set r0 (res.get r0 - p.2)) rest := by
      unfold fulfill
      rw [List.foldl_cons, hr0]
    rw [hstep]
    apply ih
    · exact ⟨(List.nodup_cons.mp hnd).2, fun q hq => hknown q (by simp [hq])⟩
    · unfold canFulfill
      rw [List.all_eq_true]
      intro q hq
      obtain ⟨rq, hrq⟩ := Option.isSome_iff_exists.mp (hknown q (by simp [hq]))
      rw [hrq]
      have hne : rq ≠ r0 := by
        intro hEq
        subst hEq
        have : q.1 = p.1 := lookupRsrc_inj hrq hr0
        have hmem : q.1 ∈ rest.map Prod.fst := List.mem_map_of_mem _ hq
        rw [this] at hmem
        exact (List.nodup_cons.mp hnd).1 hmem
      have hq' : q.2 ≤ res.get rq := by
        have := List.all_eq_true.mp hrest q hq
        rw [hrq] at this
        exact of_decide_eq_true this
      show decide (q.2 ≤ (res.set r0 (res.get r0 - p.2)).get rq) = true
      rw [ResMap.get_set]
      simp [hne, hq']
    · intro r
      rw [ResMap.get_set]
      by_cases h : r = r0
      · simp [h]
        linarith [hres r0]
      · simp [h]
        exact hres r

lemma processQueue_nonneg (queue : List Req) (res : ResMap)
    (hres : ∀ r, 0 ≤ res.get r) (hq : ∀ req ∈ queue, ReqKeysOK req) :
    (∀ r, 0 ≤ (processQueue res queue).1.get r) ∧
    (∀ req ∈ (processQueue res queue).2, ReqKeysOK req) := by
  induction queue generalizing res with
  | nil => exact ⟨hres, by simp [processQueue]⟩
  | cons req rest ih =>
    unfold processQueue
    split
    · rename_i hcan
      exact ih (fulfill res req) (fulfill_nonneg req res (hq req (by simp)) hcan hres)
        (fun q hqm => hq q (by simp [hqm]))
    · obtain ⟨ihres, ihq⟩ := ih res hres (fun q hqm => hq q (by simp [hqm]))
      refine ⟨ihres, ?_⟩
      intro q hqm
      rcases List.mem_cons.mp hqm with h | h
      · exact h ▸ hq req (by simp)
      · exact ihq q h

lemma consumeResources_nonneg (res : ResMap) (occ : ℕ) :
    ∀ r, 0 ≤ (consumeResources res occ).get r := by
  intro r
  cases r <;> simp [consumeResources, ResMap.get]

/-- Resource well-formedness of a shelter: all stocks non-negative and every
queued request well-formed. -/
def ResInv (s : Shelter) : Prop :=
  (∀ r, 0 ≤ s.resources.get r) ∧ ∀ req ∈ s.resource_requests, ReqKeysOK req

/-- The constraint a Python caller's arguments obey: a resource request is a
dict (distinct keys) of non-negative quantities. -/
def shOpOK : ShOp → Prop
  | .request req => (req.map Prod.fst).Nodup ∧ ∀ p ∈ req, 0 ≤ p.2
  | _ => True

instance : DecidablePred shOpOK := by
  intro op
  cases op <;> simp only [shOpOK] <;> infer_instance

lemma resInv_apply {s : Shelter} (op : ShOp) (hop : shOpOK op) (hs : ResInv s) :
    ResInv (applyShOp s op) := by
  obtain ⟨hres, hq⟩ := hs
  cases op with
  | add h =>
    simp only [applyShOp, addOccupant]
    split
    · exact ⟨hres, hq⟩
    · exact ⟨hres, hq⟩
  | remove h =>
    simp only [applyShOp, removeOccupant]
    split
    · exact ⟨hres, hq⟩
    · exact ⟨hres, hq⟩
  | request req =>
    simp only [applyShOp, requestResources]
    split
    · rename_i hall
      refine ⟨hres, ?_⟩
      intro q hqm
      rcases List.mem_append.mp hqm with h | h
      · exact hq q h
      · rw [List.mem_singleton.mp h]
        refine ⟨hop.1, ?_⟩
        intro p hp
        have := List.all_eq_true.mp hall p hp
        cases hcase : lookupRsrc p.1
        · rw [hcase] at this
          simp at this
        · simp [hcase]
    · exact ⟨hres, hq⟩
  | step =>
    have h1 : ∀ r, 0 ≤ (consumeResources s.resources s.occupancy).get r :=
      consumeResources_nonneg s.resources s.occupancy
    obtain ⟨h2, h3⟩ :=
      processQueue_nonneg s.resource_requests (consumeResources s.resources s.occupancy) h1 hq
    exact ⟨h2, h3⟩

lemma resInv_run {s : Shelter} (ops : List ShOp) (hops : ∀ op ∈ ops, shOpOK op)
    (hs : ResInv s) : ResInv (runShelter s ops) := by
  induction ops generalizing s with
  | nil => exact hs
  | cons op rest ih =>
    exact ih (fun o ho => hops o (by simp [ho]))
      (resInv_apply op (hops op (by simp)) hs)

/-- C6: starting from a freshly initialised shelter, after any sequence of
`step` and `request_resources` calls (interleaved with admissions and
removals) in which every request is a dict of non-negative quantities, all
four resource stocks remain non-negative. -/
theorem shelter_resources_never_negative (cap : ℕ) (ops : List ShOp)
    (hops : ∀ op ∈ ops, shOpOK op) :
    0 ≤ (runShelter (initShelter cap) ops).resources.food ∧
    0 ≤ (runShelter (initShelter cap) ops).resources.water ∧
    0 ≤ (runShelter (initShelter cap) ops).resources.medical_supplies ∧
    0 ≤ (runShelter (initShelter cap) ops).resources.blankets := by
  have hinit : ResInv (initShelter cap) := by
    constructor
    · intro r
      cases r <;> simp [initShelter, ResMap.get]
    · simp [initShelter]
  obtain ⟨h, _⟩ := resInv_run ops hops hinit
  exact ⟨h .food, h .water, h .medical_supplies, h .blankets⟩

/-- Witness for C6: admit two households, queue a food request, then run two
steps; every stock remains non-negative. -/
theorem shelter_resources_never_negative_witness :
    0 ≤ (runShelter (initShelter 10)
          [.add 0, .add 1, .request [("food", 200), ("water", 100)], .step, .step]).resources.food ∧
    0 ≤ (runShelter (initShelter 10)
          [.add 0, .add 1, .request [("food", 200), ("water", 100)], .step, .step]).resources.water ∧
    0 ≤ (runShelter (initShelter 10)
          [.add 0, .add 1, .request [("food", 200), ("water", 100)], .step, .step]).resources.medical_supplies ∧
    0 ≤ (runShelter (initShelter 10)
          [.add 0, .add 1, .request [("food", 200), ("water", 100)], .step, .step]).resources.blankets :=
  shelter_resources_never_negative 10
    [.add 0, .add 1, .request [("food", 200), ("water", 100)], .step, .step] (by decide)

/-- C9: `request_resources` returns false — leaving the shelter, hence its
request queue and stocks, unchanged — exactly when some requested name is not
stocked or some requested amount exceeds the current stock; otherwise it
returns true and only appends the request to the pending queue, deducting
nothing. -/
theorem request_resources_accepts_iff_available (s : Shelter) (req : Req) :
    ((requestResources s req).1 = false ↔
      ∃ p ∈ req, lookupRsrc p.1 = none ∨
        ∃ r, lookupRsrc p.1 = some r ∧ s.resources.get r < p.2) ∧
    ((requestResources s req).1 = false → (requestResources s req).2 = s) ∧
    ((requestResources s req).1 = true →
      (requestResources s req).2 =
        { s with resource_requests := s.resource_requests ++ [req] }) := by
  have hcheck : ∀ p : String × ℚ,
      ((match lookupRsrc p.1 with
        | some r => decide (p.2 ≤ s.resources.get r)
        | none => false) = false ↔
       (lookupRsrc p.1 = none ∨
        ∃ r, lookupRsrc p.1 = some r ∧ s.resources.get r < p.2)) := by
    intro p
    cases h : lookupRsrc p.1 <;> simp [h]
  unfold requestResources
  split
  · rename_i hall
    refine ⟨iff_of_false (by simp) ?_, by simp, fun _ => rfl⟩
    rintro ⟨p, hp, hbad⟩
    have hptrue := List.all_eq_true.mp hall p hp
    rw [(hcheck p).mpr hbad] at hptrue
    cases hptrue
  · rename_i hall
    refine ⟨iff_of_true rfl ?_, fun _ => rfl, by simp⟩
    rw [List.all_eq_true] at hall
    push_neg at hall
    obtain ⟨p, hp, hbad⟩ := hall
    refine ⟨p, hp, (hcheck p).mp ?_⟩
    cases hcase : (match lookupRsrc p.1 with
      | some r => decide (p.2 ≤ s.resources.get r)
      | none => false) with
    | false => rfl
    | true => exact absurd hcase hbad

/-- Witness for C9: a request for an unstocked resource is rejected without
changing the shelter, and a satisfiable request is queued. -/
theorem request_resources_accepts_iff_available_witness :
    (requestResources (initShelter 5) [("gold", 1)]).2 = initShelter 5 ∧
    (requestResources (initShelter 5) [("food", 100)]).2 =
      { initShelter 5 with resource_requests := [[("food", 100)]] } :=
  ⟨(request_resources_accepts_iff_available (initShelter 5) [("gold", 1)]).2.1 (by decide),
   (request_resources_accepts_iff_available (initShelter 5) [("food", 100)]).2.2 (by decide)⟩

/-! ## River agent

Embeds `RiverAgent`.  Rainfall is the external input of a step
(`model.get_rainfall_data`).  `flow_rate` and `sediment_load` are derived
outputs computed from the water level (Manning's formula uses a real 2/3
power); they feed back into neither the water level nor the flood
classification, and no claim mentions them, so the embedded state carries
the fields the classification claims are about. -/

/-- The configured `hydrology.flood_thresholds`. -/
structure FloodThresholds where
  danger_level : ℚ
  severe_level : ℚ
deriving DecidableEq

/-- `_check_flood_conditions`: map a water level to
(`flood_status`, `warning_level`). -/
def classifyFlood (t : FloodThresholds) (wl : ℚ) : String × ℕ :=
  if t.severe_level ≤ wl then ("severe", 3)
  else if t.danger_level ≤ wl then ("danger", 2)
  else if t.danger_level * (7/10) ≤ wl then ("warning", 1)
  else ("normal", 0)

/-- `_update_water_level`: rainfall inflow minus evaporation, floored at 0. -/
def updateWaterLevel (wl rain : ℚ) : ℚ :=
  max 0 (wl + rain * (1/10) - wl * (1/100))

structure River where
  water_level : ℚ
  flood_status : String
  warning_level : ℕ
deriving DecidableEq

/-- `RiverAgent.__init__` state. -/
def initRiver : River where
  water_level := 0
  flood_status := "normal"
  warning_level := 0

/-- `RiverAgent.step` restricted to the water-level/classification fields:
update the water level from the step's rainfall, then classify. -/
def riverStep (t : FloodThresholds) (r : River) (rain : ℚ) : River :=
  let wl := updateWaterLevel r.water_level rain
  let c := classifyFlood t wl
  { water_level := wl, flood_status := c.1, warning_level := c.2 }

def runRiver (t : FloodThresholds) (r : River) (rains : List ℚ) : River :=
  rains.foldl (riverStep t) r

/-! ### River claim theorems -/

lemma classifyFlood_snd_mono (t : FloodThresholds) {a b : ℚ} (hab : a ≤ b) :
    (classifyFlood t a).2 ≤ (classifyFlood t b).2 := by
  unfold classifyFlood
  split_ifs <;> simp_all <;> linarith

/-- Counterexample to C2 as stated: with `danger_level = severe_level = 1`
(which satisfies `0.7·danger_level ≤ danger_level ≤ severe_level`), a water
level exactly at `danger_level` is classified `severe`, not `danger`. -/
theorem classify_at_danger_counterexample :
    (7/10 : ℚ) * 1 ≤ 1 ∧ (1 : ℚ) ≤ 1 ∧
    classifyFlood ⟨1, 1⟩ 1 = ("severe", 3) ∧
    (classifyFlood ⟨1, 1⟩ 1).1 ≠ "danger" := by
  refine ⟨by norm_num, le_refl 1, ?_, ?_⟩ <;> decide

/-- C2 (amended): the classification maps a water level through the threshold
chain exactly as the spec lists it (`severe_level` tested first), the warning
level is monotone non-decreasing in the water level, and a water level exactly
at `danger_level` yields status `danger` provided `danger_level` is strictly
below `severe_level` (at `danger_level = severe_level` the severe branch wins,
which the counterexample above exhibits). -/
theorem classify_flood_threshold_spec (t : FloodThresholds) (wl : ℚ) :
    (t.severe_level ≤ wl → classifyFlood t wl = ("severe", 3)) ∧
    (wl < t.severe_level → t.danger_level ≤ wl →
      classifyFlood t wl = ("danger", 2)) ∧
    (wl < t.severe_level → wl < t.danger_level → t.danger_level * (7/10) ≤ wl →
      classifyFlood t wl = ("warning", 1)) ∧
    (wl < t.severe_level → wl < t.danger_level → wl < t.danger_level * (7/10) →
      classifyFlood t wl = ("normal", 0)) ∧
    (∀ wl', wl ≤ wl' → (classifyFlood t wl).2 ≤ (classifyFlood t wl').2) ∧
    (t.danger_level < t.severe_level →
      classifyFlood t t.danger_level = ("danger", 2)) := by
  refine ⟨?_, ?_, ?_, ?_, fun wl' h => classifyFlood_snd_mono t h, ?_⟩ <;>
    (intros; unfold classifyFlood; split_ifs <;> first | rfl | linarith)

/-- Witness for C2 (amended): thresholds danger 5 / severe 10, evaluated at
water level 5 (the danger boundary) and the monotone pair 5 ≤ 7. -/
theorem classify_flood_threshold_spec_witness :
    classifyFlood ⟨5, 10⟩ 5 = ("danger", 2) ∧
    (classifyFlood ⟨5, 10⟩ 5).2 ≤ (classifyFlood ⟨5, 10⟩ 7).2 :=
  ⟨(classify_flood_threshold_spec ⟨5, 10⟩ 5).2.1 (by norm_num) (by norm_num),
   (classify_flood_threshold_spec ⟨5, 10⟩ 5).2.2.2.2.1 7 (by norm_num)⟩

/-- C7: each river step sets the water level to
`max(0, water_level + rainfall·0.1 − water_level·0.01)`; and with positive
configured thresholds, a river starting at water level 0 fed rainfall 0 stays
at water level 0 with flood status `normal` after every step. -/
theorem river_update_formula_and_calm_scenario (t : FloodThresholds)
    (hd : 0 < t.danger_level) (hs : 0 < t.severe_level) :
    (∀ (r : River) (rain : ℚ),
      (riverStep t r rain).water_level =
        max 0 (r.water_level + rain * (1/10) - r.water_level * (1/100))) ∧
    (∀ n : ℕ,
      (runRiver t initRiver (List.replicate n 0)).water_level = 0 ∧
      (runRiver t initRiver (List.replicate n 0)).flood_status = "normal") := by
  have hclass : classifyFlood t 0 = ("normal", 0) := by
    unfold classifyFlood
    rw [if_neg (by linarith), if_neg (by linarith), if_neg (by linarith)]
  have hone : riverStep t initRiver 0 = initRiver := by
    unfold riverStep initRiver updateWaterLevel
    norm_num [hclass]
  refine ⟨fun r rain => rfl, ?_⟩
  intro n
  induction n with
  | zero => exact ⟨rfl, rfl⟩
  | succ k ih =>
    have : runRiver t initRiver (List.replicate (k + 1) 0) =
        runRiver t initRiver (List.replicate k 0) := by
      rw [List.replicate_succ, runRiver, List.foldl_cons, hone]
      rfl
    rw [this]
    exact ih

/-- Witness for C7: thresholds danger 5 / severe 10, ten calm steps. -/
theorem river_update_formula_and_calm_scenario_witness :
    (runRiver ⟨5, 10⟩ initRiver (List.replicate 10 0)).water_level = 0 ∧
    (runRiver ⟨5, 10⟩ initRiver (List.replicate 10 0)).flood_status = "normal" :=
  (river_update_formula_and_calm_scenario ⟨5, 10⟩ (by norm_num) (by norm_num)).2 10

/-! ## Economic agent

Embeds `EconomicAgent`.  The distance-weighted sum of nearby rivers' water
levels (`sum of water_level/(1+distance)`) is the external input of a step;
`_assess_flood_impact` multiplies it by the sector's vulnerability.
`employment` and `income` are initialisation-only fields read by no step
code; they are omitted. -/

/-- A row of the sector parameter table in `_initialize_sector_parameters`. -/
structure SectorParams where
  vulnerability : ℚ
  recovery_time : ℚ
  insurance_rate : ℚ
  employment_ratio : ℚ
  base_assets : ℚ
deriving DecidableEq

def sectorParams : String → SectorParams
  | "agriculture" => ⟨8/10, 180, 3/10, 4/10, 50000⟩
  | "industry" => ⟨6/10, 90, 7/10, 3/10, 200000⟩
  | "services" => ⟨4/10, 30, 5/10, 3/10, 100000⟩
  | _ => ⟨5/10, 60, 5/10, 33/100, 75000⟩

/-- Economic agent state: the `state` keys the step code reads or writes,
together with the sector parameters it consults (`insurance_rate` is mutable
via the insurance intervention). -/
structure Econ where
  production_level : ℚ
  damage : ℚ
  insured_damage : ℚ
  recovery_rate : ℚ
  market_access : ℚ
  flood_impact : ℚ
  assets : ℚ
  insurance_rate : ℚ
  recovery_time : ℚ
  vulnerability : ℚ
deriving DecidableEq

/-- `EconomicAgent.__init__` followed by `_initialize_sector_parameters`
(`flood_impact` and `insured_damage` are absent until first written; reads
use default 0, modelled as initial 0). -/
def initEcon (sector : String) : Econ :=
  let p := sectorParams sector
  { production_level := 1
    damage := 0
    insured_damage := 0
    recovery_rate := 0
    market_access := 1
    flood_impact := 0
    assets := p.base_assets
    insurance_rate := p.insurance_rate
    recovery_time := p.recovery_time
    vulnerability := p.vulnerability }

/-- `_assess_flood_impact`: the river sum scaled by sector vulnerability. -/
def assessFloodImpact (e : Econ) (riverSum : ℚ) : Econ :=
  { e with flood_impact := riverSum * e.vulnerability }

/-- `_update_production`: clamp into [0,1]. -/
def updateProduction (e : Econ) : Econ :=
  let newProduction :=
    max 0 (min 1 (e.production_level * (1 - e.flood_impact) + e.recovery_rate))
  { e with production_level := newProduction }

/-- `_calculate_damage`: split the base damage by the insurance rate. -/
def calculateDamage (e : Econ) : Econ :=
  let base := e.assets * e.flood_impact * (1 - e.production_level)
  { e with damage := base * (1 - e.insurance_rate),
           insured_damage := base * e.insurance_rate }

/-- `_update_recovery`. -/
def updateRecovery (e : Econ) : Econ :=
  let newRecovery :=
    min 1 (e.recovery_rate + (1 / e.recovery_time) * (1 - e.flood_impact))
  { e with recovery_rate := newRecovery }

/-- `_update_market_access`: note there is no lower clamp. -/
def updateMarketAccess (e : Econ) : Econ :=
  let newAccess := (1 - e.flood_impact) * (7/10 + (3/10) * e.production_level)
  { e with market_access := newAccess }

/-- `EconomicAgent.step`, in source order. -/
def econStep (e : Econ) (riverSum : ℚ) : Econ :=
  updateMarketAccess (updateRecovery (calculateDamage (updateProduction
    (assessFloodImpact e riverSum))))

/-- `EconomicAgent.apply_policy_intervention`. -/
def applyPolicyIntervention (e : Econ) (itype : String) (magnitude : ℚ) : Econ :=
  if itype = "subsidy" then
    { e with production_level := min 1 (e.production_level * (1 + magnitude)) }
  else if itype = "insurance" then
    { e with insurance_rate := min 1 (e.insurance_rate * (1 + magnitude)) }
  else if itype = "recovery" then
    { e with recovery_rate := min 1 (e.recovery_rate * (1 + magnitude)) }
  else if itype = "infrastructure" then
    { e with market_access := min 1 (e.market_access * (1 + magnitude)) }
  else e

/-- The calls an economic agent's environment may make. -/
inductive EconOp : Type where
  | step (riverSum : ℚ)
  | policy (itype : String) (magnitude : ℚ)

def applyEconOp (e : Econ) : EconOp → Econ
  | .step riverSum => econStep e riverSum
  | .policy itype m => applyPolicyIntervention e itype m

def runEcon (e : Econ) (ops : List EconOp) : Econ :=
  ops.foldl applyEconOp e

/-- The claim's hypothesis: non-negative flood inputs and magnitudes. -/
def econOpOK : EconOp → Prop
  | .step riverSum => 0 ≤ riverSum
  | .policy _ m => 0 ≤ m

/-- The stronger hypothesis under which `market_access` keeps its lower
bound: every step's computed flood impact is at most 1. -/
def econOpMild (v : ℚ) : EconOp → Prop
  | .step riverSum => riverSum * v ≤ 1
  | .policy _ _ => True

instance : DecidablePred econOpOK := by
  intro op
  cases op <;> simp only [econOpOK] <;> infer_instance

instance (v : ℚ) : DecidablePred (econOpMild v) := by
  intro op
  cases op <;> simp only [econOpMild] <;> infer_instance

/-! ### Economic claim theorems -/

/-- Counterexample to C3 as stated: a fresh default-sector agent
(vulnerability 0.5) hit by one step with non-negative river input 4 has
flood impact 2, and `market_access` drops to −0.7, outside [0,1]
(the market-access formula has no lower clamp). -/
theorem econ_market_access_negative_counterexample :
    (0 : ℚ) ≤ 4 ∧
    (econStep (initEcon "unknown") 4).market_access = -(7/10) ∧
    ¬ (0 ≤ (econStep (initEcon "unknown") 4).market_access) := by
  have hfull : (econStep (initEcon "unknown") 4).market_access =
      (1 - 4 * (5/10 : ℚ)) *
        (7/10 + (3/10) * max 0 (min 1 ((1 : ℚ) * (1 - 4 * (5/10)) + 0))) := rfl
  have hp' : max (0 : ℚ) (min 1 ((1 : ℚ) * (1 - 4 * (5/10)) + 0)) = 0 := by
    rw [min_eq_right (by norm_num), max_eq_left (by norm_num)]
  rw [hfull, hp']
  norm_num

/-- Invariant for the amended C3. -/
def EconInv (e : Econ) : Prop :=
  0 ≤ e.production_level ∧ e.production_level ≤ 1 ∧
  e.market_access ≤ 1 ∧ 0 ≤ e.vulnerability

lemma econStep_production (e : Econ) (riverSum : ℚ) :
    (econStep e riverSum).production_level =
      max 0 (min 1 (e.production_level * (1 - riverSum * e.vulnerability) +
        e.recovery_rate)) := rfl

lemma econInv_step {e : Econ} (riverSum : ℚ) (hrs : 0 ≤ riverSum)
    (he : EconInv e) : EconInv (econStep e riverSum) := by
  obtain ⟨hp0, hp1, hma, hv⟩ := he
  have hfi : 0 ≤ riverSum * e.vulnerability := mul_nonneg hrs hv
  set p' := max 0 (min 1 (e.production_level * (1 - riverSum * e.vulnerability) +
    e.recovery_rate)) with hp'
  have hp'0 : 0 ≤ p' := le_max_left 0 _
  have hp'1 : p' ≤ 1 := max_le (by norm_num) (min_le_left 1 _)
  have hfac : (0 : ℚ) ≤ 7/10 + (3/10) * p' := by linarith
  refine ⟨hp'0, hp'1, ?_, hv⟩
  show (1 - riverSum * e.vulnerability) * (7/10 + (3/10) * p') ≤ 1
  nlinarith [mul_nonneg hfi hfac]

lemma econInv_policy {e : Econ} (itype : String) (m : ℚ) (hm : 0 ≤ m)
    (he : EconInv e) : EconInv (applyPolicyIntervention e itype m) := by
  obtain ⟨hp0, hp1, hma, hv⟩ := he
  unfold applyPolicyIntervention
  split_ifs
  · exact ⟨le_min (by norm_num) (by nlinarith), min_le_left 1 _, hma, hv⟩
  · exact ⟨hp0, hp1, hma, hv⟩
  · exact ⟨hp0, hp1, hma, hv⟩
  · exact ⟨hp0, hp1, min_le_left 1 _, hv⟩
  · exact ⟨hp0, hp1, hma, hv⟩

lemma econInv_run {e : Econ} (ops : List EconOp) (hops : ∀ op ∈ ops, econOpOK op)
    (he : EconInv e) : EconInv (runEcon e ops) := by
  induction ops generalizing e with
  | nil => exact he
  | cons op rest ih =>
    refine ih (fun o ho => hops o (by simp [ho])) ?_
    cases op with
    | step riverSum => exact econInv_step riverSum (hops (.step riverSum) (by simp)) he
    | policy itype m => exact econInv_policy itype m (hops (.policy itype m) (by simp)) he

/-- Stronger invariant when every flood impact stays at most 1. -/
def EconInvMild (e : Econ) : Prop := EconInv e ∧ 0 ≤ e.market_access

lemma econ_vulnerability_const (e : Econ) (ops : List EconOp) :
    (runEcon e ops).vulnerability = e.vulnerability := by
  induction ops generalizing e with
  | nil => rfl
  | cons op rest ih =>
    rw [runEcon, List.foldl_cons, ← runEcon, ih]
    cases op with
    | step riverSum => rfl
    | policy itype m =>
      show (applyPolicyIntervention e itype m).vulnerability = e.vulnerability
      unfold applyPolicyIntervention
      split_ifs <;> rfl

lemma econInvMild_step {e : Econ} (riverSum : ℚ) (hrs : 0 ≤ riverSum)
    (hmild : riverSum * e.vulnerability ≤ 1) (he : EconInvMild e) :
    EconInvMild (econStep e riverSum) := by
  obtain ⟨⟨hp0, hp1, hma, hv⟩, hma0⟩ := he
  refine ⟨econInv_step riverSum hrs ⟨hp0, hp1, hma, hv⟩, ?_⟩
  have hfi : 0 ≤ riverSum * e.vulnerability := mul_nonneg hrs hv
  set p' := max 0 (min 1 (e.production_level * (1 - riverSum * e.vulnerability) +
    e.recovery_rate)) with hp'
  have hp'0 : 0 ≤ p' := le_max_left 0 _
  have hfac : (0 : ℚ) ≤ 7/10 + (3/10) * p' := by linarith
  show 0 ≤ (1 - riverSum * e.vulnerability) * (7/10 + (3/10) * p')
  exact mul_nonneg (by linarith) hfac

lemma econInvMild_policy {e : Econ} (itype : String) (m : ℚ) (hm : 0 ≤ m)
    (he : EconInvMild e) : EconInvMild (applyPolicyIntervention e itype m) := by
  obtain ⟨hinv, hma0⟩ := he
  refine ⟨econInv_policy itype m hm hinv, ?_⟩
  unfold applyPolicyIntervention
  split_ifs
  · exact hma0
  · exact hma0
  · exact hma0
  · exact le_min (by norm_num) (by nlinarith)
  · exact hma0

lemma econInvMild_run {e : Econ} (ops : List EconOp)
    (hops : ∀ op ∈ ops, econOpOK op)
    (hmild : ∀ op ∈ ops, econOpMild e.vulnerability op)
    (he : EconInvMild e) : EconInvMild (runEcon e ops) := by
  induction ops generalizing e with
  | nil => exact he
  | cons op rest ih =>
    have hv2 : (applyEconOp e op).vulnerability = e.vulnerability := by
      cases op with
      | step riverSum => rfl
      | policy itype m =>
        show (applyPolicyIntervention e itype m).vulnerability = e.vulnerability
        unfold applyPolicyIntervention
        split_ifs <;> rfl
    refine ih (fun o ho => hops o (by simp [ho]))
      (fun o ho => by rw [hv2]; exact hmild o (by simp [ho])) ?_
    cases op with
    | step riverSum =>
      exact econInvMild_step riverSum (hops (.step riverSum) (by simp))
        (hmild (.step riverSum) (by simp)) he
    | policy itype m =>
      exact econInvMild_policy itype m (hops (.policy itype m) (by simp)) he

/-- C3 (amended): for every economic agent and every sequence of steps (with
non-negative flood inputs) and policy interventions (with non-negative
magnitudes), `production_level` stays within [0,1] and `market_access` stays
at most 1; `market_access` also stays at least 0 — hence in [0,1] — provided
every step's computed flood impact is at most 1 (without that proviso it can
go negative, as the counterexample shows). -/
theorem econ_production_in_unit_interval_market_access_bounded
    (sector : String) (ops : List EconOp)
    (hops : ∀ op ∈ ops, econOpOK op) :
    (0 ≤ (runEcon (initEcon sector) ops).production_level ∧
     (runEcon (initEcon sector) ops).production_level ≤ 1 ∧
     (runEcon (initEcon sector) ops).market_access ≤ 1) ∧
    ((∀ op ∈ ops, econOpMild (sectorParams sector).vulnerability op) →
      0 ≤ (runEcon (initEcon sector) ops).market_access) := by
  have hv0 : 0 ≤ (sectorParams sector).vulnerability := by
    unfold sectorParams
    split <;> norm_num
  have hinit : EconInv (initEcon sector) :=
    ⟨by norm_num [initEcon], by norm_num [initEcon], by norm_num [initEcon], hv0⟩
  obtain ⟨h1, h2, h3, _⟩ := econInv_run ops hops hinit
  refine ⟨⟨h1, h2, h3⟩, fun hmild => ?_⟩
  have : EconInvMild (runEcon (initEcon sector) ops) :=
    econInvMild_run ops hops hmild ⟨hinit, by norm_num [initEcon]⟩
  exact this.2

/-- Witness for C3 (amended): an agriculture agent through one flood step and
one subsidy intervention. -/
theorem econ_production_in_unit_interval_market_access_bounded_witness :
    (0 ≤ (runEcon (initEcon "agriculture")
            [.step 1, .policy "subsidy" (1/2)]).production_level ∧
     (runEcon (initEcon "agriculture")
            [.step 1, .policy "subsidy" (1/2)]).production_level ≤ 1 ∧
     (runEcon (initEcon "agriculture")
            [.step 1, .policy "subsidy" (1/2)]).market_access ≤ 1) ∧
    0 ≤ (runEcon (initEcon "agriculture")
            [.step 1, .policy "subsidy" (1/2)]).market_access :=
  ⟨(econ_production_in_unit_interval_market_access_bounded "agriculture"
      [.step 1, .policy "subsidy" (1/2)]
      (by intro op hop; fin_cases hop <;> norm_num [econOpOK])).1,
   (econ_production_in_unit_interval_market_access_bounded "agriculture"
      [.step 1, .policy "subsidy" (1/2)]
      (by intro op hop; fin_cases hop <;> norm_num [econOpOK])).2
      (by intro op hop; fin_cases hop <;> norm_num [econOpMild, sectorParams])⟩

/-- The concrete state of the C8 scenario: assets 10000, flood impact 0.5,
production level 0, insurance rate 0.3. -/
def scenarioEcon : Econ where
  production_level := 0
  damage := 0
  insured_damage := 0
  recovery_rate := 0
  market_access := 1
  flood_impact := 1/2
  assets := 10000
  insurance_rate := 3/10
  recovery_time := 60
  vulnerability := 1/2

/-- C8: the damage calculation assigns
`insured_damage = assets·flood_impact·(1−production_level)·insurance_rate`
and `damage = assets·flood_impact·(1−production_level)·(1−insurance_rate)`;
on the scenario state the base damage is 5000, the insured damage 1500, and
the uninsured damage 3500. -/
theorem econ_damage_split (e : Econ) :
    ((calculateDamage e).insured_damage =
      e.assets * e.flood_impact * (1 - e.production_level) * e.insurance_rate) ∧
    ((calculateDamage e).damage =
      e.assets * e.flood_impact * (1 - e.production_level) * (1 - e.insurance_rate)) ∧
    (scenarioEcon.assets * scenarioEcon.flood_impact *
        (1 - scenarioEcon.production_level) = 5000 ∧
     (calculateDamage scenarioEcon).insured_damage = 1500 ∧
     (calculateDamage scenarioEcon).damage = 3500) := by
  refine ⟨rfl, rfl, by norm_num [scenarioEcon],
    by norm_num [calculateDamage, scenarioEcon],
    by norm_num [calculateDamage, scenarioEcon]⟩

/-! ## Household agent

Embeds `HouseholdAgent`.  Cross-agent and random inputs of a step enter as
an explicit environment record: the maximum warning level and
distance-weighted exposure read from nearby rivers, the uniform draw of the
evacuation decision, the distance to the nearest shelter (`none` when no
shelter agent exists), and the uniform noise of the travel-time formula.
Position, the `nearest_shelter` id and the shelter-side `add_occupant` call
are outputs that never feed back into the household fields the claims are
about; the per-category asset map enters through its total valuation, since
`_update_damage_assessment` multiplies every category by the same base
damage and sums. -/

inductive HousingType : Type where
  | kutcha
  | semi_pucca
  | pucca
deriving DecidableEq, Repr

/-- `housing_risk` multipliers in `_make_evacuation_decision`. -/
def housingRisk : HousingType → ℚ
  | .kutcha => 12/10
  | .semi_pucca => 1
  | .pucca => 8/10

/-- `damage_factors` in `_update_damage_assessment`. -/
def damageFactor : HousingType → ℚ
  | .kutcha => 8/10
  | .semi_pucca => 5/10
  | .pucca => 3/10

inductive EvacStatus : Type where
  | home
  | evacuating
  | shelter
deriving DecidableEq, Repr

structure Household where
  evacuation_status : EvacStatus
  evacuation_decision : Bool
  warning_received : Bool
  warning_level : ℕ
  flood_exposure : ℚ
  damage_level : ℚ
  assets_at_risk : ℚ
  evacuation_time : ℚ
  housing_type : HousingType
  vulnerability : ℚ
  assetsTotal : ℚ
deriving DecidableEq

/-- The external inputs of one `HouseholdAgent.step`. -/
structure HhEnv where
  maxWarning : ℕ
  exposure : ℚ
  u : ℚ
  shelterDist : Option ℚ
  timeNoise : ℚ
deriving DecidableEq

/-- `HouseholdAgent.__init__` state. -/
def initHousehold (ht : HousingType) (v aT : ℚ) : Household where
  evacuation_status := .home
  evacuation_decision := false
  warning_received := false
  warning_level := 0
  flood_exposure := 0
  damage_level := 0
  assets_at_risk := 0
  evacuation_time := 0
  housing_type := ht
  vulnerability := v
  assetsTotal := aT

/-- `_check_warnings`: record the maximum warning level over nearby rivers. -/
def checkWarnings (h : Household) (e : HhEnv) : Household :=
  { h with warning_received := decide (0 < e.maxWarning),
           warning_level := e.maxWarning }

/-- `_assess_flood_risk`: record the distance-weighted exposure sum. -/
def assessFloodRisk (h : Household) (e : HhEnv) : Household :=
  { h with flood_exposure := e.exposure }

/-- `_make_evacuation_decision`: Bernoulli draw against the clamped weighted
probability; a no-op unless the household is still at home. -/
def makeEvacuationDecision (h : Household) (u : ℚ) : Household :=
  if h.evacuation_status = .home then
    let base := (3/10) * (h.warning_level : ℚ) + (4/10) * h.flood_exposure +
      (3/10) * h.vulnerability
    let finalProbability := min 1 (base * housingRisk h.housing_type)
    { h with evacuation_decision := decide (u < finalProbability) }
  else h

/-- `_execute_evacuation`: find the nearest shelter (abort when none), mark
`evacuating`, and arrive immediately when the noisy travel time is ≤ 1
(`_move_towards_shelter` only changes the position). -/
def executeEvacuation (h : Household) (e : HhEnv) : Household :=
  if h.evacuation_decision = false then h
  else
    match e.shelterDist with
    | none => h
    | some d =>
      let timeWithObstacles := d * 100 * (1 + (2/10) * e.timeNoise)
      let h' := { h with evacuation_status := .evacuating,
                         evacuation_time := timeWithObstacles }
      if timeWithObstacles ≤ 1 then
        { h' with evacuation_status := .shelter, evacuation_decision := false }
      else h'

/-- `_update_damage_assessment`: only while still at home. -/
def updateDamageAssessment (h : Household) : Household :=
  if h.evacuation_status = .home then
    let base := h.flood_exposure * damageFactor h.housing_type
    { h with damage_level := base, assets_at_risk := h.assetsTotal * base }
  else h

/-- `HouseholdAgent.step`, in source order. -/
def householdStep (h : Household) (e : HhEnv) : Household :=
  let h1 := checkWarnings h e
  let h2 := assessFloodRisk h1 e
  let h3 := makeEvacuationDecision h2 e.u
  let h4 := if h3.evacuation_decision then executeEvacuation h3 e else h3
  updateDamageAssessment h4

def runHousehold (h : Household) (envs : List HhEnv) : Household :=
  envs.foldl householdStep h

/-! ### Household claim theorems -/

def statusRank : EvacStatus → ℕ
  | .home => 0
  | .evacuating => 1
  | .shelter => 2

/-- Reachability invariant: a sheltered household has a cleared evacuation
decision (`_arrive_at_shelter` clears it and nothing re-sets it afterwards,
because `_make_evacuation_decision` is a no-op away from home). -/
def HhInv (h : Household) : Prop :=
  h.evacuation_status = .shelter → h.evacuation_decision = false

lemma statusRank_eq_zero {s : EvacStatus} : statusRank s = 0 ↔ s = .home := by
  cases s <;> simp [statusRank]

lemma makeEvacuationDecision_fields (x : Household) (u : ℚ) :
    (makeEvacuationDecision x u).evacuation_status = x.evacuation_status ∧
    (makeEvacuationDecision x u).damage_level = x.damage_level ∧
    (makeEvacuationDecision x u).assets_at_risk = x.assets_at_risk := by
  unfold makeEvacuationDecision
  split <;> exact ⟨rfl, rfl, rfl⟩

lemma makeEvacuationDecision_decision_of_ne (x : Household) (u : ℚ)
    (hne : ¬ x.evacuation_status = .home) :
    (makeEvacuationDecision x u).evacuation_decision = x.evacuation_decision := by
  unfold makeEvacuationDecision
  rw [if_neg hne]

lemma executeEvacuation_damage (x : Household) (e : HhEnv) :
    (executeEvacuation x e).damage_level = x.damage_level ∧
    (executeEvacuation x e).assets_at_risk = x.assets_at_risk := by
  unfold executeEvacuation
  split
  · exact ⟨rfl, rfl⟩
  · split
    · exact ⟨rfl, rfl⟩
    · dsimp only
      split <;> exact ⟨rfl, rfl⟩

lemma executeEvacuation_rank (x : Household) (e : HhEnv)
    (hne : x.evacuation_status ≠ .shelter) :
    statusRank x.evacuation_status ≤ statusRank (executeEvacuation x e).evacuation_status := by
  unfold executeEvacuation
  split
  · exact le_refl _
  · split
    · exact le_refl _
    · dsimp only
      split
      · show statusRank x.evacuation_status ≤ statusRank .shelter
        cases x.evacuation_status <;> simp [statusRank]
      · show statusRank x.evacuation_status ≤ statusRank .evacuating
        cases hst : x.evacuation_status <;> simp_all [statusRank]

lemma executeEvacuation_inv (x : Household) (e : HhEnv) (hinv : HhInv x) :
    HhInv (executeEvacuation x e) := by
  unfold executeEvacuation
  split
  · exact hinv
  · split
    · exact hinv
    · dsimp only
      split
      · intro _
        rfl
      · intro hcon
        exact absurd hcon (by simp)

lemma updateDamageAssessment_fields (x : Household) :
    (updateDamageAssessment x).evacuation_status = x.evacuation_status ∧
    (updateDamageAssessment x).evacuation_decision = x.evacuation_decision := by
  unfold updateDamageAssessment
  split <;> exact ⟨rfl, rfl⟩

lemma updateDamageAssessment_damage_of_ne (x : Household)
    (hne : ¬ x.evacuation_status = .home) :
    (updateDamageAssessment x).damage_level = x.damage_level ∧
    (updateDamageAssessment x).assets_at_risk = x.assets_at_risk := by
  unfold updateDamageAssessment
  rw [if_neg hne]
  exact ⟨rfl, rfl⟩

lemma householdStep_cases (h : Household) (e : HhEnv) (hinv : HhInv h) :
    HhInv (householdStep h e) ∧
    statusRank h.evacuation_status ≤ statusRank (householdStep h e).evacuation_status ∧
    (h.evacuation_status ≠ .home →
      (householdStep h e).damage_level = h.damage_level ∧
      (householdStep h e).assets_at_risk = h.assets_at_risk) := by
  have h2eq : assessFloodRisk (checkWarnings h e) e =
      assessFloodRisk (checkWarnings h e) e := rfl
  set h3 := makeEvacuationDecision (assessFloodRisk (checkWarnings h e) e) e.u with hh3
  obtain ⟨h3st, h3dmg, h3ar⟩ :=
    makeEvacuationDecision_fields (assessFloodRisk (checkWarnings h e) e) e.u
  rw [← hh3] at h3st h3dmg h3ar
  have h3st' : h3.evacuation_status = h.evacuation_status := h3st
  have h3dmg' : h3.damage_level = h.damage_level := h3dmg
  have h3ar' : h3.assets_at_risk = h.assets_at_risk := h3ar
  set h4 := if h3.evacuation_decision = true then executeEvacuation h3 e else h3 with hh4
  have hstep : householdStep h e = updateDamageAssessment h4 := by
    rw [hh4, hh3]
    rfl
  -- the invariant and rank facts about h4
  have h3inv : HhInv h3 := by
    intro hsh
    rw [h3st'] at hsh
    have hdne : ¬ h.evacuation_status = .home := by rw [hsh]; intro hcon; cases hcon
    have : h3.evacuation_decision = h.evacuation_decision := by
      rw [hh3]
      rw [makeEvacuationDecision_decision_of_ne _ _ (by
        show ¬ (assessFloodRisk (checkWarnings h e) e).evacuation_status = .home
        exact hdne)]
      rfl
    rw [this]
    exact hinv hsh
  have h4inv : HhInv h4 := by
    rw [hh4]
    split
    · exact executeEvacuation_inv h3 e h3inv
    · exact h3inv
  have h4rank : statusRank h.evacuation_status ≤ statusRank h4.evacuation_status := by
    rw [hh4]
    split
    · rename_i hb
      have hnsh : h3.evacuation_status ≠ .shelter := fun hsh => by
        have hfalse := h3inv hsh
        rw [hb] at hfalse
        cases hfalse
      calc statusRank h.evacuation_status
          = statusRank h3.evacuation_status := by rw [h3st']
        _ ≤ statusRank (executeEvacuation h3 e).evacuation_status :=
            executeEvacuation_rank h3 e hnsh
    · rw [h3st']
  have h4dmg : h4.damage_level = h.damage_level ∧ h4.assets_at_risk = h.assets_at_risk := by
    rw [hh4]
    split
    · obtain ⟨ha, hb⟩ := executeEvacuation_damage h3 e
      exact ⟨ha.trans h3dmg', hb.trans h3ar'⟩
    · exact ⟨h3dmg', h3ar'⟩
  obtain ⟨hust, husd⟩ := updateDamageAssessment_fields h4
  refine ⟨?_, ?_, ?_⟩
  · intro hsh
    rw [hstep] at hsh
    rw [hstep, husd]
    exact h4inv (hust ▸ hsh)
  · rw [hstep, hust]
    exact h4rank
  · intro hne
    have h4ne : ¬ h4.evacuation_status = .home := by
      intro hcon
      rw [hcon] at h4rank
      exact hne (statusRank_eq_zero.mp (Nat.le_zero.mp h4rank))
    obtain ⟨ha, hb⟩ := updateDamageAssessment_damage_of_ne h4 h4ne
    rw [hstep]
    exact ⟨ha.trans h4dmg.1, hb.trans h4dmg.2⟩

lemma hhRun_cases (envs : List HhEnv) (h : Household) (hinv : HhInv h) :
    HhInv (runHousehold h envs) ∧
    statusRank h.evacuation_status ≤ statusRank (runHousehold h envs).evacuation_status ∧
    (h.evacuation_status ≠ .home →
      (runHousehold h envs).damage_level = h.damage_level ∧
      (runHousehold h envs).assets_at_risk = h.assets_at_risk) := by
  induction envs generalizing h with
  | nil => exact ⟨hinv, le_refl _, fun _ => ⟨rfl, rfl⟩⟩
  | cons e rest ih =>
    obtain ⟨hinv1, hrank1, hdam1⟩ := householdStep_cases h e hinv
    obtain ⟨hinv2, hrank2, hdam2⟩ := ih (householdStep h e) hinv1
    refine ⟨hinv2, le_trans hrank1 hrank2, fun hne => ?_⟩
    have hne1 : (householdStep h e).evacuation_status ≠ .home := by
      intro hcon
      rw [hcon] at hrank1
      have : statusRank h.evacuation_status = 0 := Nat.le_zero.mp hrank1
      cases hst : h.evacuation_status <;> rw [hst] at this <;> simp [statusRank] at this
      · exact hne hst
    obtain ⟨hd1, ha1⟩ := hdam1 hne
    obtain ⟨hd2, ha2⟩ := hdam2 hne1
    exact ⟨hd2.trans hd1, ha2.trans ha1⟩

/-- C4: for every household (any housing type, vulnerability, assets) and any
step sequence, the evacuation status only moves forward along
home → evacuating → shelter (its rank never decreases over any extension of
the run), and once the status has left `home`, `damage_level` and
`assets_at_risk` are never mutated by subsequent steps. -/
theorem household_forward_only_and_damage_frozen (ht : HousingType) (v aT : ℚ)
    (envs more : List HhEnv) :
    statusRank (runHousehold (initHousehold ht v aT) envs).evacuation_status ≤
      statusRank (runHousehold (initHousehold ht v aT) (envs ++ more)).evacuation_status ∧
    ((runHousehold (initHousehold ht v aT) envs).evacuation_status ≠ .home →
      (runHousehold (initHousehold ht v aT) (envs ++ more)).damage_level =
        (runHousehold (initHousehold ht v aT) envs).damage_level ∧
      (runHousehold (initHousehold ht v aT) (envs ++ more)).assets_at_risk =
        (runHousehold (initHousehold ht v aT) envs).assets_at_risk) := by
  have hsplit : runHousehold (initHousehold ht v aT) (envs ++ more) =
      runHousehold (runHousehold (initHousehold ht v aT) envs) more := by
    unfold runHousehold
    exact List.foldl_append _ _ _ _
  have hinit : HhInv (initHousehold ht v aT) := fun hcon => by
    simp [initHousehold] at hcon
  obtain ⟨hinv1, _, _⟩ := hhRun_cases envs (initHousehold ht v aT) hinit
  obtain ⟨_, hrank, hdam⟩ := hhRun_cases more (runHousehold (initHousehold ht v aT) envs) hinv1
  rw [hsplit]
  exact ⟨hrank, hdam⟩

/-- Witness for C4: a maximally exposed kutcha household evacuates to a
shelter at distance 0 in the first step; the second step leaves its frozen
damage figures unchanged. -/
theorem household_forward_only_and_damage_frozen_witness :
    statusRank (runHousehold (initHousehold .kutcha 1 1000)
        [⟨3, 5, 0, some 0, 0⟩]).evacuation_status ≤
      statusRank (runHousehold (initHousehold .kutcha 1 1000)
        ([⟨3, 5, 0, some 0, 0⟩] ++ [⟨3, 5, 0, some 0, 0⟩])).evacuation_status ∧
    (runHousehold (initHousehold .kutcha 1 1000)
        ([⟨3, 5, 0, some 0, 0⟩] ++ [⟨3, 5, 0, some 0, 0⟩])).damage_level =
      (runHousehold (initHousehold .kutcha 1 1000)
        [⟨3, 5, 0, some 0, 0⟩]).damage_level ∧
    (runHousehold (initHousehold .kutcha 1 1000)
        ([⟨3, 5, 0, some 0, 0⟩] ++ [⟨3, 5, 0, some 0, 0⟩])).assets_at_risk =
      (runHousehold (initHousehold .kutcha 1 1000)
        [⟨3, 5, 0, some 0, 0⟩]).assets_at_risk := by
  have hstatus : (runHousehold (initHousehold .kutcha 1 1000)
      [⟨3, 5, 0, some 0, 0⟩]).evacuation_status = .shelter := by
    show (householdStep (initHousehold .kutcha 1 1000) ⟨3, 5, 0, some 0, 0⟩).evacuation_status = .shelter
    unfold householdStep checkWarnings assessFloodRisk makeEvacuationDecision
      executeEvacuation updateDamageAssessment initHousehold
    norm_num [housingRisk]
    simp [apply_ite]
  have := household_forward_only_and_damage_frozen .kutcha 1 1000
    [⟨3, 5, 0, some 0, 0⟩] [⟨3, 5, 0, some 0, 0⟩]
  exact ⟨this.1, this.2 (by rw [hstatus]; intro hcon; cases hcon)⟩

end FloodSim
